import Mathlib

/-!
Shallow embedding of the Rock-Paper-Scissors-Plus referee core
(`config.py`, `game_logic.py`, `game_tools.py`, the game-flow part of
`main.py`), with theorems checking the specification's claims.

Modelling conventions:
* Python strings are Lean `String`s; moves and winners stay strings, as in
  the source.  `str.lower().strip()` is `String.toLower` then `String.trim`.
* Python floats `0.7`, `0.2`, `0.4` and the value of `random.random()` are
  modelled as rationals; `random.random()` and `random.choice` are explicit
  inputs (`u : ℚ`, `c : Fin 3`), making the generator deterministic.
* A Python function that can raise (`KeyError` from `WIN_MATRIX[user_move]`)
  returns an `Option`, `none` being the uncaught exception.
* `dict.copy()` is a shallow copy: the `history` value of every state dict
  produced by `DEFAULT_STATE.copy()` is the very same list object as
  `DEFAULT_STATE["history"]`, and `update_game_state_tool` mutates that list
  in place with `append`.  Hence at every moment of a process run there is
  exactly one history list, shared by `DEFAULT_STATE` and the session state;
  the embedding threads it through as the `history` field, and
  `reset_game_tool`, which re-copies `DEFAULT_STATE`, keeps it.
-/

/-- From `config.py`: `VALID_MOVES = ["rock", "paper", "scissors", "bomb"]`. -/
def VALID_MOVES : List String := ["rock", "paper", "scissors", "bomb"]

/-- From `config.py`: `MAX_ROUNDS = 3`. -/
def MAX_ROUNDS : Nat := 3

/-- A value of the `WIN_MATRIX` dict in `config.py`: three entries hold a
single move name, the `"bomb"` entry holds a list of move names. -/
inductive WinEntry where
  | one (m : String)
  | many (ms : List String)
  deriving DecidableEq

/-- From `config.py`: the `WIN_MATRIX` dict, as a lookup returning `none`
for a missing key (a `KeyError` in Python). -/
def WIN_MATRIX (m : String) : Option WinEntry :=
  if m = "rock" then some (.one "scissors")
  else if m = "paper" then some (.one "rock")
  else if m = "scissors" then some (.one "paper")
  else if m = "bomb" then some (.many ["rock", "paper", "scissors"])
  else none

/-- Python `==` between a `WIN_MATRIX` value and a string: comparing the
list entry with a string is always `False` in Python. -/
def winEntryEqStr (e : WinEntry) (s : String) : Bool :=
  match e with
  | .one m => m = s
  | .many _ => false

/-- Python `str.lower()` (ASCII case folding, as relevant to the four move
names), implemented over the character list so the kernel can evaluate it. -/
def py_lower (s : String) : String :=
  ⟨s.data.map Char.toLower⟩

/-- Python `str.strip()`: drop leading and trailing whitespace, implemented
over the character list so the kernel can evaluate it. -/
def py_strip (s : String) : String :=
  ⟨(((s.data.dropWhile Char.isWhitespace).reverse.dropWhile Char.isWhitespace).reverse)⟩

/-- Python `s.lower().strip()`, the normalization used throughout the code. -/
def py_lower_strip (s : String) : String :=
  py_strip (py_lower s)

/-- From `game_logic.py`: `is_valid_move`. -/
def is_valid_move (move : String) : Bool :=
  py_lower_strip move ∈ VALID_MOVES

/-- From `game_logic.py`: `normalize_move` — `None` for empty or
unrecognized input, else the lower-cased trimmed move name. -/
def normalize_move (move : String) : Option String :=
  if move = "" then none
  else
    let normalized := py_lower_strip move
    if normalized ∈ VALID_MOVES then some normalized else none

/-- The dict returned by `determine_winner` in `game_logic.py`. -/
structure RoundOutcome where
  winner : String
  reason : String
  bomb_used : Bool
  deriving DecidableEq

/-- From `game_logic.py`: `determine_winner`.  The branches are in source
order; the last branch looks `user_move` up in `WIN_MATRIX`, which raises
`KeyError` (here `none`) when `user_move` is not a key. -/
def determine_winner (user_move bot_move : String) : Option RoundOutcome :=
  if user_move = "bomb" ∧ bot_move = "bomb" then
    some ⟨"draw", "Both players used bomb! It\x27s a draw.", true⟩
  else if user_move = "bomb" then
    some ⟨"user", "\u011F\u0178\u2019\u00A5 BOOM! Your bomb obliterated the bot\x27s " ++ bot_move ++ "!", true⟩
  else if bot_move = "bomb" then
    some ⟨"bot", "\u011F\u0178\u2019\u00A5 BOOM! Bot\x27s bomb obliterated your " ++ user_move ++ "!", true⟩
  else if user_move = bot_move then
    some ⟨"draw", "Both chose " ++ user_move ++ ". It\x27s a draw!", false⟩
  else
    match WIN_MATRIX user_move with
    | none => none
    | some e =>
      if winEntryEqStr e bot_move then
        some ⟨"user", user_move.capitalize ++ " beats " ++ bot_move ++ "!", false⟩
      else
        some ⟨"bot", bot_move.capitalize ++ " beats " ++ user_move ++ "!", false⟩

/-- From `game_logic.py`: `can_use_bomb`. -/
def can_use_bomb (bomb_used : Bool) : Bool :=
  !bomb_used

/-- The `normal_moves` list of `generate_bot_move`. -/
def normal_moves : List String := ["rock", "paper", "scissors"]

/-- From `game_logic.py`: `generate_bot_move`, with the random source
explicit: `u` is the value of the (at most one) `random.random()` call and
`c` the index drawn by `random.choice(normal_moves)`.  The float literals
`0.7`, `0.2`, `0.4` are the rationals `mkRat 7 10`, `mkRat 1 5`,
`mkRat 2 5`.  The three bomb checks are mutually exclusive on
`current_round`, so the `elif`-style chain matches the source's
fall-through. -/
def generate_bot_move (user_bomb_used bot_bomb_used : Bool) (current_round : Nat)
    (u : ℚ) (c : Fin 3) : String :=
  if bot_bomb_used = false then
    if current_round = 2 ∧ user_bomb_used = false ∧ u < mkRat 7 10 then "bomb"
    else if current_round = 0 ∧ u < mkRat 1 5 then "bomb"
    else if current_round = 1 ∧ u < mkRat 2 5 then "bomb"
    else normal_moves.get ⟨c.val, c.isLt⟩
  else normal_moves.get ⟨c.val, c.isLt⟩

/-- From `game_logic.py`: `calculate_final_winner`. -/
def calculate_final_winner (user_score bot_score : Nat) : String :=
  if user_score > bot_score then "user"
  else if bot_score > user_score then "bot"
  else "tie"

/-- From `game_logic.py`: `format_score`. -/
def format_score (user_score bot_score : Nat) : String :=
  "You " ++ toString user_score ++ " - " ++ toString bot_score ++ " Bot"

/-- One entry of the `history` list, as appended by
`update_game_state_tool` in `game_tools.py`.  The move fields are strings
because the forfeit path stores the sentinels `"invalid"`/`"forfeit"`. -/
structure HistEntry where
  round : Nat
  user_move : String
  bot_move : String
  winner : String
  reason : String
  deriving DecidableEq

/-- The session-state dict of `STATE_SCHEMA`/`DEFAULT_STATE` in
`config.py`.  `winner` is `None` (`none`) until the match ends. -/
structure GameState where
  round : Nat
  user_score : Nat
  bot_score : Nat
  user_bomb_used : Bool
  bot_bomb_used : Bool
  game_over : Bool
  winner : Option String
  history : List HistEntry
  deriving DecidableEq

/-- `DEFAULT_STATE.copy()`: a shallow copy of the `DEFAULT_STATE` dict of
`config.py`.  The scalar fields are the fresh defaults; the `history`
field is the shared mutable list object (see the module comment), whose
current contents are `hist`. -/
def default_state_copy (hist : List HistEntry) : GameState :=
  { round := 0, user_score := 0, bot_score := 0, user_bomb_used := false,
    bot_bomb_used := false, game_over := false, winner := none, history := hist }

/-- The state of a fresh process: `GameSession.__init__` in `main.py` runs
`self.state = DEFAULT_STATE.copy()` while `DEFAULT_STATE["history"]` is
still the empty list. -/
def initialState : GameState :=
  default_state_copy []

/-- The dict returned by `validate_move_tool` in `game_tools.py`. -/
structure ValidationResult where
  valid : Bool
  move : Option String
  can_use_bomb : Bool
  error : Option String
  deriving DecidableEq

/-- From `game_tools.py`: `validate_move_tool`, on a session whose state is
initialized (the agent always initializes it; `validate_move_session`
below covers the `not session.state` branch).  The source's nested
`if normalized == "bomb": if user_bomb_used: return ...` is rendered as a
single conjunction guard; the two fall-through returns of the source are
the same final return. -/
def validate_move_tool (s : GameState) (move : String) : ValidationResult :=
  match normalize_move move with
  | none =>
    ⟨false, none, !s.user_bomb_used,
      some ("Invalid move \x27" ++ move ++ "\x27. Choose: rock, paper, scissors, or bomb")⟩
  | some normalized =>
    if normalized = "bomb" ∧ s.user_bomb_used = true then
      ⟨false, none, false, some "You\x27ve already used your bomb this game!"⟩
    else
      ⟨true, some normalized, !s.user_bomb_used, none⟩

/-- From `game_tools.py`: `validate_move_tool` on a possibly-uninitialized
session (`none` models `not hasattr(session, "state") or not
session.state`); `hist` is the current contents of the shared
`DEFAULT_STATE["history"]` list used by the initializing copy.  Returns
the tool's result together with the session state after the call. -/
def validate_move_session (hist : List HistEntry) :
    Option GameState → String → ValidationResult × GameState
  | none, move => (validate_move_tool (default_state_copy hist) move, default_state_copy hist)
  | some s, move => (validate_move_tool s move, s)

/-- The dict returned by `resolve_round_tool` in `game_tools.py`. -/
structure RoundResult where
  winner : String
  reason : String
  bomb_used : Bool
  user_move : String
  bot_move : String
  deriving DecidableEq

/-- From `game_tools.py`: `resolve_round_tool` (its `session` argument is
unused by the source).  `none` is the propagated `KeyError` of
`determine_winner`. -/
def resolve_round_tool (user_move bot_move : String) : Option RoundResult :=
  (determine_winner user_move bot_move).map fun r =>
    ⟨r.winner, r.reason, r.bomb_used, user_move, bot_move⟩

/-- From `game_tools.py`: `update_game_state_tool` — increments the round,
credits the winner, sets bomb flags, appends the history record (whose
`round` field is the already-incremented counter).  The returned summary
dict is ignored by every caller, so only the updated state is modelled;
the `if "history" not in session.state` branch never fires because the
key is always present in a copy of `DEFAULT_STATE`. -/
def update_game_state_tool (s : GameState) (winner user_move bot_move reason : String) :
    GameState :=
  let round1 := s.round + 1
  { s with
    round := round1
    user_score := if winner = "user" then s.user_score + 1 else s.user_score
    bot_score := if winner = "bot" then s.bot_score + 1 else s.bot_score
    user_bomb_used := if user_move = "bomb" then true else s.user_bomb_used
    bot_bomb_used := if bot_move = "bomb" then true else s.bot_bomb_used
    history := s.history ++ [⟨round1, user_move, bot_move, winner, reason⟩] }

/-- The dict returned by `check_game_end_tool` in `game_tools.py` (the
`final_score` sub-dict is flattened into two fields). -/
structure GameEndStatus where
  game_over : Bool
  winner : Option String
  final_user : Nat
  final_bot : Nat
  reason : String
  score_display : String
  deriving DecidableEq

/-- From `game_tools.py`: `check_game_end_tool` — if `round >= MAX_ROUNDS`,
sets `game_over` and the final `winner` on the state and reports them;
otherwise mutates nothing. -/
def check_game_end_tool (s : GameState) : GameEndStatus × GameState :=
  let current_round := s.round
  let user_score := s.user_score
  let bot_score := s.bot_score
  if current_round ≥ MAX_ROUNDS then
    let w := calculate_final_winner user_score bot_score
    let reason :=
      if w = "user" then
        "ðŸŽ‰ You won " ++ toString user_score ++ "-" ++ toString bot_score ++ "!"
      else if w = "bot" then
        "ðŸ¤– Bot won " ++ toString bot_score ++ "-" ++ toString user_score ++ "."
      else
        "ðŸ¤ It\x27s a tie at " ++ toString user_score ++ "-" ++ toString bot_score ++ "!"
    (⟨true, some w, user_score, bot_score, reason, format_score user_score bot_score⟩,
      { s with game_over := true, winner := some w })
  else
    (⟨false, none, user_score, bot_score,
        "Round " ++ toString (current_round + 1) ++ " of " ++ toString MAX_ROUNDS,
        format_score user_score bot_score⟩,
      s)

/-- From `game_tools.py`: `reset_game_tool` — `session.state =
DEFAULT_STATE.copy()`.  The shallow copy keeps the shared history list,
whose current contents are exactly `s.history` (see the module comment). -/
def reset_game_tool (s : GameState) : GameState :=
  default_state_copy s.history

/-- The dict returned by `get_game_state_tool` in `game_tools.py`: the
read-only snapshot of the eight state fields. -/
structure Snapshot where
  round : Nat
  user_score : Nat
  bot_score : Nat
  user_bomb_used : Bool
  bot_bomb_used : Bool
  game_over : Bool
  winner : Option String
  history : List HistEntry
  deriving DecidableEq

/-- From `game_tools.py`: `get_game_state_tool` on an initialized session. -/
def get_game_state_tool (s : GameState) : Snapshot :=
  ⟨s.round, s.user_score, s.bot_score, s.user_bomb_used, s.bot_bomb_used,
    s.game_over, s.winner, s.history⟩

/-- The response of `GameRefereeAgent.process_user_input` in `main.py`,
with the presentation strings replaced by the structured data they are
formatted from (formatting is out of the specified core). -/
inductive Response where
  | quitMessage
  | newGameMessage
  | gameOverMenu
  | invalidResponse (error : String)
  | roundResponse (result : RoundResult) (status : GameEndStatus)
  | gameOverResponse (result : RoundResult) (status : GameEndStatus)
  deriving DecidableEq

/-- From `main.py`: `GameRefereeAgent.process_user_input`, the
`submit_move` entry point.  `u` and `c` are the explicit random inputs of
`generate_bot_move`; the result is `none` when the Python code would raise
(the `KeyError` of `determine_winner`, impossible for validated input).
Mirrors the source order: quit commands, new-game commands, the
`game_over` early return, validation, then either the forfeit path
(`_handle_invalid_round`, which never calls `check_game_end_tool`) or the
bot-move/resolve/update/check path. -/
def process_user_input (s : GameState) (user_input : String) (u : ℚ) (c : Fin 3) :
    Option (Response × GameState) :=
  if py_lower_strip user_input ∈ (["quit", "exit", "q"] : List String) then
    some (.quitMessage, s)
  else if py_lower_strip user_input ∈ (["new game", "restart", "reset"] : List String) then
    some (.newGameMessage, reset_game_tool s)
  else if s.game_over = true then
    some (.gameOverMenu, s)
  else
    let validation := validate_move_tool s user_input
    if validation.valid = false then
      let err := validation.error.getD ""
      some (.invalidResponse err, update_game_state_tool s "bot" "invalid" "forfeit" err)
    else
      let bot_move := generate_bot_move s.user_bomb_used s.bot_bomb_used s.round u c
      match resolve_round_tool (validation.move.getD "") bot_move with
      | none => none
      | some round_result =>
        let s1 := update_game_state_tool s round_result.winner round_result.user_move
          round_result.bot_move round_result.reason
        let (game_status, s2) := check_game_end_tool s1
        if game_status.game_over = true then
          some (.gameOverResponse round_result game_status, s2)
        else
          some (.roundResponse round_result game_status, s2)

/-- A sequence of `process_user_input` calls, each with its input string
and its random draws; `none` once any call raises. -/
def runInputs (s : GameState) : List (String × ℚ × Fin 3) → Option GameState
  | [] => some s
  | (m, u, c) :: rest =>
    match process_user_input s m u c with
    | none => none
    | some (_, s1) => runInputs s1 rest

/-- The spec's three classic beats relations: rock beats scissors,
scissors beats paper, paper beats rock (spec §4.1 rule 4); a spec-side
definition, to be compared with the code's `WIN_MATRIX` branch. -/
abbrev spec_classic_beats (a b : String) : Prop :=
  (a = "rock" ∧ b = "scissors") ∨ (a = "scissors" ∧ b = "paper") ∨ (a = "paper" ∧ b = "rock")

/-- Claim C1 (refuted by the code): the claim says `game_over` is true iff
`round = MAX_ROUNDS`, that after exactly 3 completed `submit_move` calls
(valid or forfeit) the match is over and no further call mutates the
state, and that `round` never exceeds 3.  The forfeit path of
`process_user_input` (`_handle_invalid_round`) never calls
`check_game_end_tool`, so three forfeited rounds leave `round = 3` with
`game_over = false`, and a fourth call still succeeds and pushes
`round` to 4. -/
theorem C1_round_cap_violated :
    (runInputs initialState [("zzz", 0, 0), ("zzz", 0, 0), ("zzz", 0, 0)]).map
        (fun s => (s.round, s.game_over)) = some (3, false)
    ∧ (runInputs initialState [("zzz", 0, 0), ("zzz", 0, 0), ("zzz", 0, 0), ("zzz", 0, 0)]).map
        (fun s => (s.round, s.game_over)) = some (4, false) := by
  decide

/-- Claim C2 (refuted by the code): the claim says `reset` followed by
`snapshot` always yields the fresh defaults with an empty history.
Because `reset_game_tool` re-copies `DEFAULT_STATE` shallowly, the
history list survives the reset: after one forfeited round, reset then
snapshot yields the fresh scalar fields but the one-entry history. -/
theorem C2_reset_keeps_history :
    (runInputs initialState [("zzz", 0, 0)]).map
        (fun s => get_game_state_tool (reset_game_tool s)) =
      some ⟨0, 0, 0, false, false, false, none,
        [⟨1, "invalid", "forfeit", "bot",
          "Invalid move \x27zzz\x27. Choose: rock, paper, scissors, or bomb"⟩]⟩ := by
  decide

/-- Claim C3 (refuted by the code): the claim says `len(history) = round`
after every core operation, including `reset`.  After one forfeited round
and a reset, `round = 0` while the (shallowly shared) history still has
one entry. -/
theorem C3_history_length_after_reset :
    (runInputs initialState [("zzz", 0, 0)]).map
        (fun s => ((reset_game_tool s).round, (reset_game_tool s).history.length)) =
      some (0, 1) := by
  decide

/-- Claim C4: on an in-progress state, input that is invalid — or that
normalizes to `bomb` while the player's bomb flag is already set —
forfeits the round: the round counter increments, the bot's score
increments, a history entry with the `"forfeit"` sentinel in the
bot-move field and the validation error as reason is appended, and the
result does not depend on the random inputs (no bot move is generated). -/
theorem C4_forfeit_round (s : GameState) (input : String) (u : ℚ) (c : Fin 3)
    (h1 : py_lower_strip input ∉ (["quit", "exit", "q"] : List String))
    (h2 : py_lower_strip input ∉ (["new game", "restart", "reset"] : List String))
    (hgo : s.game_over = false)
    (hbad : normalize_move input = none ∨
      (normalize_move input = some "bomb" ∧ s.user_bomb_used = true)) :
    process_user_input s input u c =
      some (.invalidResponse ((validate_move_tool s input).error.getD ""),
        { s with
          round := s.round + 1
          bot_score := s.bot_score + 1
          history := s.history ++
            [⟨s.round + 1, "invalid", "forfeit", "bot",
              (validate_move_tool s input).error.getD ""⟩] }) := by
  unfold process_user_input
  rw [if_neg h1, if_neg h2]
  rcases hbad with hn | ⟨hb, hu⟩
  · simp [hgo, validate_move_tool, hn, update_game_state_tool]
  · simp [hgo, validate_move_tool, hb, hu, update_game_state_tool]

/-- Witness for C4 at the fresh state and the invalid input `"zzz"`. -/
theorem C4_forfeit_round_witness :
    process_user_input initialState "zzz" 0 0 =
      some (.invalidResponse ((validate_move_tool initialState "zzz").error.getD ""),
        { initialState with
          round := initialState.round + 1
          bot_score := initialState.bot_score + 1
          history := initialState.history ++
            [⟨initialState.round + 1, "invalid", "forfeit", "bot",
              (validate_move_tool initialState "zzz").error.getD ""⟩] }) :=
  C4_forfeit_round initialState "zzz" 0 0 (by decide) (by decide) rfl (Or.inl (by decide))

/-- Claim C5: calling `process_user_input` with a move string on a state
with `game_over = true` yields the terminal-state response (the
`MatchAlreadyComplete` condition) with the state unchanged in every
field; and that response occurs on no other state, so it is the only
condition surfaced without progressing the match. -/
theorem C5_match_already_complete (s : GameState) (input : String) (u : ℚ) (c : Fin 3)
    (h1 : py_lower_strip input ∉ (["quit", "exit", "q"] : List String))
    (h2 : py_lower_strip input ∉ (["new game", "restart", "reset"] : List String)) :
    (s.game_over = true → process_user_input s input u c = some (.gameOverMenu, s))
    ∧ (s.game_over = false →
        (process_user_input s input u c).map Prod.fst ≠ some Response.gameOverMenu) := by
  unfold process_user_input
  rw [if_neg h1, if_neg h2]
  constructor
  · intro h
    simp [h]
  · intro h
    rw [if_neg (show ¬(s.game_over = true) by simp [h])]
    dsimp only
    split
    · simp
    · split
      · simp
      · split <;> simp

/-- Witness for C5 at a completed fresh-scores state and the input
`"rock"`. -/
theorem C5_match_already_complete_witness :
    process_user_input { initialState with game_over := true } "rock" 0 0 =
      some (.gameOverMenu, { initialState with game_over := true }) :=
  (C5_match_already_complete { initialState with game_over := true } "rock" 0 0
    (by decide) (by decide)).1 rfl

/-- Claim C6: `determine_winner` on bombs — both bomb is a draw, exactly
one bomb wins for the side that played it, and the `bomb_used` flag is
true exactly when at least one side played bomb. -/
theorem C6_bomb_resolution (a b : String) (ha : a ∈ VALID_MOVES) (hb : b ∈ VALID_MOVES) :
    (a = "bomb" → b = "bomb" →
      (determine_winner a b).map RoundOutcome.winner = some "draw")
    ∧ (a = "bomb" → b ≠ "bomb" →
      (determine_winner a b).map RoundOutcome.winner = some "user")
    ∧ (b = "bomb" → a ≠ "bomb" →
      (determine_winner a b).map RoundOutcome.winner = some "bot")
    ∧ (determine_winner a b).map RoundOutcome.bomb_used =
        some (a == "bomb" || b == "bomb") := by
  simp only [VALID_MOVES, List.mem_cons, List.not_mem_nil, or_false] at ha hb
  rcases ha with rfl | rfl | rfl | rfl <;> rcases hb with rfl | rfl | rfl | rfl <;> decide

/-- Witness for C6 at the pair (bomb, rock). -/
theorem C6_bomb_resolution_witness :
    (determine_winner "bomb" "rock").map RoundOutcome.winner = some "user" :=
  (C6_bomb_resolution "bomb" "rock" (by decide) (by decide)).2.1 rfl (by decide)

/-- Claim C7: `determine_winner` on non-bomb pairs — equal moves draw with
`bomb_used = false`; for distinct moves the side whose move beats the
other under the spec's three classic relations wins, with
`bomb_used = false`. -/
theorem C7_classic_resolution (a b : String) (ha : a ∈ VALID_MOVES) (hb : b ∈ VALID_MOVES)
    (hna : a ≠ "bomb") (hnb : b ≠ "bomb") :
    (a = b → (determine_winner a b).map RoundOutcome.winner = some "draw")
    ∧ (spec_classic_beats a b →
      (determine_winner a b).map RoundOutcome.winner = some "user")
    ∧ (spec_classic_beats b a →
      (determine_winner a b).map RoundOutcome.winner = some "bot")
    ∧ (determine_winner a b).map RoundOutcome.bomb_used = some false := by
  simp only [VALID_MOVES, List.mem_cons, List.not_mem_nil, or_false] at ha hb
  rcases ha with rfl | rfl | rfl | rfl <;> rcases hb with rfl | rfl | rfl | rfl <;>
    first
      | exact absurd rfl hna
      | exact absurd rfl hnb
      | decide

/-- Witness for C7 at the pair (rock, scissors). -/
theorem C7_classic_resolution_witness :
    (determine_winner "rock" "scissors").map RoundOutcome.winner = some "user" :=
  (C7_classic_resolution "rock" "scissors" (by decide) (by decide) (by decide)
    (by decide)).2.1 (Or.inl ⟨rfl, rfl⟩)

/-- Claim C8: `generate_bot_move` with the randomness explicit — once the
bot's bomb is used only classic moves come out; otherwise bomb is chosen
exactly when the uniform draw `u` falls below 0.7 (final round, player
bomb unused), 0.2 (round 0) or 0.4 (round 1); whenever bomb is not the
result, the result is the uniform choice among the three classic moves.
The final conjunct characterizes bomb selection completely, so in every
remaining case — in particular round 2 with the player's bomb already
spent, or a round index outside 0..2 — bomb is never produced and the
uniform classic choice is returned. -/
theorem C8_bot_move_generation (ub bb : Bool) (r : Nat) (u : ℚ) (c : Fin 3) :
    (bb = true → generate_bot_move ub bb r u c ≠ "bomb" ∧
      generate_bot_move ub bb r u c ∈ normal_moves)
    ∧ (bb = false → r = 2 → ub = false →
      (generate_bot_move ub bb r u c = "bomb" ↔ u < mkRat 7 10))
    ∧ (bb = false → r = 0 →
      (generate_bot_move ub bb r u c = "bomb" ↔ u < mkRat 1 5))
    ∧ (bb = false → r = 1 →
      (generate_bot_move ub bb r u c = "bomb" ↔ u < mkRat 2 5))
    ∧ (generate_bot_move ub bb r u c ≠ "bomb" →
      generate_bot_move ub bb r u c = normal_moves.get ⟨c.val, c.isLt⟩)
    ∧ (generate_bot_move ub bb r u c = "bomb" ↔
      bb = false ∧ ((r = 2 ∧ ub = false ∧ u < mkRat 7 10)
        ∨ (r = 0 ∧ u < mkRat 1 5) ∨ (r = 1 ∧ u < mkRat 2 5))) := by
  refine ⟨?_, ?_, ?_, ?_, ?_, ?_⟩
  · rintro rfl
    simp only [generate_bot_move]
    norm_num
    fin_cases c <;> decide
  · rintro rfl rfl rfl
    simp only [generate_bot_move, if_true]
    by_cases hu : u < mkRat 7 10
    · simp [hu]
    · simp only [hu, and_false, false_and, if_false]
      norm_num
      fin_cases c <;> decide
  · rintro rfl rfl
    simp only [generate_bot_move]
    by_cases hu : u < mkRat 1 5
    · simp [hu]
    · simp only [hu, and_false, false_and, if_false]
      norm_num
      fin_cases c <;> decide
  · rintro rfl rfl
    simp only [generate_bot_move]
    by_cases hu : u < mkRat 2 5
    · simp [hu]
    · simp only [hu, and_false, false_and, if_false]
      norm_num
      fin_cases c <;> decide
  · intro h
    unfold generate_bot_move at h ⊢
    split_ifs at h ⊢ <;> first | rfl | exact absurd rfl h
  · unfold generate_bot_move
    split_ifs with hbb hc1 hc2 hc3
    · simp [hbb, hc1]
    · simp [hbb, hc2]
    · simp [hbb, hc3]
    · constructor
      · intro h
        exact absurd h (by fin_cases c <;> decide)
      · rintro ⟨-, h | h | h⟩
        · exact absurd h hc1
        · exact absurd h hc2
        · exact absurd h hc3
    · constructor
      · intro h
        exact absurd h (by fin_cases c <;> decide)
      · rintro ⟨hfalse, -⟩
        exact absurd hfalse hbb

/-- Witness for C8: with the bot's bomb available in the final round
against a player who kept theirs, the draw 0 < 0.7 selects bomb. -/
theorem C8_bot_move_generation_witness :
    generate_bot_move false false 2 0 0 = "bomb" :=
  ((C8_bot_move_generation false false 2 0 0).2.1 rfl rfl rfl).mpr (by decide)

/-- Claim C9: `determine_winner` is total on valid move pairs — it never
reaches the `KeyError` of the `WIN_MATRIX` lookup (the lookup is defined
for every non-bomb valid move) and always returns an outcome whose winner
is one of draw/user/bot, so no rule fall-through occurs. -/
theorem C9_resolve_total (a b : String) (ha : a ∈ VALID_MOVES) (hb : b ∈ VALID_MOVES) :
    (determine_winner a b).isSome = true
    ∧ (a ≠ "bomb" → (WIN_MATRIX a).isSome = true)
    ∧ (determine_winner a b).map
        (fun r => decide (r.winner ∈ (["draw", "user", "bot"] : List String))) = some true := by
  simp only [VALID_MOVES, List.mem_cons, List.not_mem_nil, or_false] at ha hb
  rcases ha with rfl | rfl | rfl | rfl <;> rcases hb with rfl | rfl | rfl | rfl <;> decide

/-- Witness for C9 at the pair (rock, paper). -/
theorem C9_resolve_total_witness :
    (determine_winner "rock" "paper").isSome = true :=
  (C9_resolve_total "rock" "paper" (by decide) (by decide)).1

/-- Claim C10: `validate_move_tool` on an initialized session is
read-only — every field of the session state after the call equals the
field before it. -/
theorem C10_validate_readonly (hist : List HistEntry) (s : GameState) (m : String) :
    (validate_move_session hist (some s) m).2.round = s.round
    ∧ (validate_move_session hist (some s) m).2.user_score = s.user_score
    ∧ (validate_move_session hist (some s) m).2.bot_score = s.bot_score
    ∧ (validate_move_session hist (some s) m).2.user_bomb_used = s.user_bomb_used
    ∧ (validate_move_session hist (some s) m).2.bot_bomb_used = s.bot_bomb_used
    ∧ (validate_move_session hist (some s) m).2.game_over = s.game_over
    ∧ (validate_move_session hist (some s) m).2.winner = s.winner
    ∧ (validate_move_session hist (some s) m).2.history = s.history :=
  ⟨rfl, rfl, rfl, rfl, rfl, rfl, rfl, rfl⟩
